import Mathlib

/-!
Verification development for the WebSocket TUN VPN repository.

The definitions below are shallow embeddings of the Python source:
bytes are `List Nat` with every element `< 256`, base64 strings are
`List Char`, and the stateful managers (`RouteManager`, `DnsManager`,
`TunnelManager`, `VPNClient.stop`) become explicit state-passing
functions. Each definition cites the function of the source it embeds.
-/

namespace VPN

/-! ### Base64 (Python `base64.b64encode` / `base64.b64decode`)

`WebSocketTunnel.send_packet` encodes the packet with `base64.b64encode`
and `WebSocketTunnel._handle_tunnel_data` decodes with `base64.b64decode`
(src/server/websocket_tunnel.py lines 93 and 162). -/

/-- The standard base64 alphabet, in order. -/
def b64chars : List Char :=
  ['A','B','C','D','E','F','G','H','I','J','K','L','M',
   'N','O','P','Q','R','S','T','U','V','W','X','Y','Z',
   'a','b','c','d','e','f','g','h','i','j','k','l','m',
   'n','o','p','q','r','s','t','u','v','w','x','y','z',
   '0','1','2','3','4','5','6','7','8','9','+','/']

/-- Sextet value to base64 character. -/
def b64char (n : Nat) : Char := b64chars.getD n '?'

/-- Base64 character back to its sextet value, `none` for characters
outside the alphabet. -/
def b64val (c : Char) : Option Nat := b64chars.findIdx? (fun d => d == c)

/-- `base64.b64encode`: three input bytes become four alphabet characters;
a final group of one or two bytes is padded with `=`. -/
def b64encode : List Nat → List Char
  | [] => []
  | [a] => [b64char (a / 4), b64char (a % 4 * 16), '=', '=']
  | [a, b] => [b64char (a / 4), b64char (a % 4 * 16 + b / 16),
               b64char (b % 16 * 4), '=']
  | a :: b :: c :: rest =>
      b64char (a / 4) :: b64char (a % 4 * 16 + b / 16) ::
      b64char (b % 16 * 4 + c / 64) :: b64char (c % 64) :: b64encode rest

/-- `base64.b64decode`: groups of four characters, with `=` padding only
allowed in the final group; invalid input yields `none` (in Python a
raised `binascii.Error`). -/
def b64decode : List Char → Option (List Nat)
  | [] => some []
  | c1 :: c2 :: c3 :: c4 :: rest =>
      match b64val c1, b64val c2 with
      | some s1, some s2 =>
        if c3 = '=' then
          if c4 = '=' ∧ rest = [] then some [s1 * 4 + s2 / 16] else none
        else
          match b64val c3 with
          | some s3 =>
            if c4 = '=' then
              if rest = [] then
                some [s1 * 4 + s2 / 16, s2 % 16 * 16 + s3 / 4]
              else none
            else
              match b64val c4, b64decode rest with
              | some s4, some tail =>
                  some ((s1 * 4 + s2 / 16) :: (s2 % 16 * 16 + s3 / 4) ::
                        (s3 % 4 * 64 + s4) :: tail)
              | _, _ => none
          | none => none
      | _, _ => none
  | _ => none

theorem b64val_b64char : ∀ n, n < 64 → b64val (b64char n) = some n := by decide

theorem b64char_ne_pad : ∀ n, n < 64 → b64char n ≠ '=' := by decide

/-- Decoding inverts encoding on byte lists (every element `< 256`). -/
theorem b64_roundtrip : ∀ (p : List Nat), (∀ b ∈ p, b < 256) →
    b64decode (b64encode p) = some p
  | [], _ => rfl
  | [a], h => by
      have ha : a < 256 := h a (by simp)
      have h1 : a / 4 < 64 := by omega
      have h2 : a % 4 * 16 < 64 := by omega
      simp only [b64encode, b64decode, b64val_b64char _ h1, b64val_b64char _ h2]
      simp only [and_self, if_true]
      simp only [Option.some.injEq, List.cons.injEq, and_true]
      omega
  | [a, b], h => by
      have ha : a < 256 := h a (by simp)
      have hb : b < 256 := h b (by simp)
      have h1 : a / 4 < 64 := by omega
      have h2 : a % 4 * 16 + b / 16 < 64 := by omega
      have h3 : b % 16 * 4 < 64 := by omega
      simp only [b64encode, b64decode, b64val_b64char _ h1, b64val_b64char _ h2]
      rw [if_neg (b64char_ne_pad _ h3)]
      simp only [b64val_b64char _ h3]
      simp only [if_true]
      simp only [Option.some.injEq, List.cons.injEq, and_true]
      omega
  | a :: b :: c :: rest, h => by
      have ha : a < 256 := h a (by simp)
      have hb : b < 256 := h b (by simp)
      have hc : c < 256 := h c (by simp)
      have h1 : a / 4 < 64 := by omega
      have h2 : a % 4 * 16 + b / 16 < 64 := by omega
      have h3 : b % 16 * 4 + c / 64 < 64 := by omega
      have h4 : c % 64 < 64 := by omega
      have ih : b64decode (b64encode rest) = some rest :=
        b64_roundtrip rest (fun x hx => h x (by simp [hx]))
      simp only [b64encode, b64decode, b64val_b64char _ h1, b64val_b64char _ h2]
      rw [if_neg (b64char_ne_pad _ h3)]
      simp only [b64val_b64char _ h3]
      rw [if_neg (b64char_ne_pad _ h4)]
      simp only [b64val_b64char _ h4, ih]
      simp only [Option.some.injEq, List.cons.injEq, and_true]
      refine ⟨by omega, by omega, by omega⟩

/-! ### Uplink: `PacketProcessor.process_packet` → `WebSocketTunnel.send_packet`

`send_packet` (src/server/websocket_tunnel.py lines 86-114) returns `False`
without sending when `connected` is false or the socket is absent; otherwise
it sends exactly one `tunnel_data` message whose `payload` is the base64 of
the packet. We record the payload of the frame that is sent, if any. -/

def mtu : Nat := 1500

/-- Spec constant: `max_frame_bytes` (MTU + 256 framing overhead). -/
def maxFrameBytes : Nat := mtu + 256

/-- Payload of the frame sent by `WebSocketTunnel.send_packet`, when one
is sent at all. -/
def send_packet (connected : Bool) (p : List Nat) : Option (List Char) :=
  if connected then some (b64encode p) else none

/-- `(packet[0] >> 4) & 0x0F` from `PacketProcessor.process_packet`. -/
def ipVersion (p : List Nat) : Nat := p.headD 0 / 16 % 16

/-- `PacketProcessor.process_packet` (src/server/tun_manager.py lines
201-258): packets shorter than 20 bytes return early; version-4 packets
are forwarded; version-6 packets are forwarded only when the header
slices `packet[8:24]` and `packet[24:40]` are full length, i.e. the
packet has at least 40 bytes (otherwise `inet_ntop` raises and the
exception handler swallows the packet); other versions are logged and
dropped. Returns the payload of the frame sent on the uplink, if any. -/
def process_packet (connected : Bool) (p : List Nat) : Option (List Char) :=
  if p.length < 20 then none
  else if ipVersion p = 4 then send_packet connected p
  else if ipVersion p = 6 then
    if 40 ≤ p.length then send_packet connected p else none
  else none

/-! ### Downlink: `WebSocketTunnel._handle_tunnel_data`

(src/server/websocket_tunnel.py lines 154-173): `if not payload: return`
drops a missing or empty payload; `base64.b64decode` failures are caught
and logged; otherwise the decoded bytes are written to the TUN device
once, when the tunnel holds one. There is no size check of any kind. -/

/-- The list of packets written to the TUN device while handling one
`tunnel_data` message. -/
def handle_tunnel_data (tunPresent : Bool) (payload : Option (List Char)) :
    List (List Nat) :=
  match payload with
  | none => []
  | some s =>
      if s = [] then []
      else
        match b64decode s with
        | none => []
        | some pkt => if tunPresent then [pkt] else []

/-! ### Inbound dispatch: `WebSocketTunnel._process_message`

(src/server/websocket_tunnel.py lines 132-152): a chained dispatch on the
string `type` field. The branches are `tunnel_data`, `ping`, `pong`,
`error`; everything else is logged as an unknown message type and
dropped. The constructor `abortProtocolError` is the action the spec
prescribes for a bad first frame; the code never produces it. -/

inductive MsgAction
  | tunnelData
  | pingReply
  | pongLogged
  | errorLogged
  | unknownLogged
  | abortProtocolError
deriving DecidableEq

/-- Action taken by `_process_message` for a message of the given type. -/
def processMessageAction (msgType : String) : MsgAction :=
  if msgType = "tunnel_data" then .tunnelData
  else if msgType = "ping" then .pingReply
  else if msgType = "pong" then .pongLogged
  else if msgType = "error" then .errorLogged
  else .unknownLogged

/-! ### Reconnection: `WebSocketTunnel._handle_reconnect`

(src/server/websocket_tunnel.py lines 197-212): if the attempt counter
has reached `max_reconnect_attempts` (10) the method logs
"Max reconnection attempts reached" and returns — nothing else is
surfaced. Otherwise it increments the counter, sleeps the constant
`reconnect_interval` (5 seconds), and tries `connect()`; on failure it
schedules itself again. -/

def reconnect_interval : Nat := 5
def max_reconnect_attempts : Nat := 10

/-- The wait before a reconnection attempt: always `reconnect_interval`,
independent of the attempt number. -/
def reconnectWait (_attempt : Nat) : Nat := reconnect_interval

inductive ReconnectOutcome
  | reconnected
  | logMaxReachedOnly
  | fatalDisconnect
deriving DecidableEq

/-- The reconnect recursion, driven by the number of attempts still
allowed (`remaining = max_reconnect_attempts - reconnect_attempts`).
Returns the terminal outcome and how many connection attempts were made.
`connectOk a` tells whether the `a`-th attempt's `connect()` returns
`True`. -/
def reconnectLoop (connectOk : Nat → Bool) (attemptNum : Nat) :
    Nat → ReconnectOutcome × Nat
  | 0 => (.logMaxReachedOnly, 0)
  | remaining + 1 =>
      if connectOk attemptNum then (.reconnected, 1)
      else
        let r := reconnectLoop connectOk (attemptNum + 1) remaining
        (r.1, r.2 + 1)

/-- `_handle_reconnect` starting from a fresh counter. -/
def handleReconnect (connectOk : Nat → Bool) : ReconnectOutcome × Nat :=
  reconnectLoop connectOk 1 max_reconnect_attempts

/-- Ways a connection attempt can fail (HTTP auth rejections, upgrade
failures, transport errors), or `none` for success. -/
inductive ConnectFailure
  | http401
  | http403
  | upgrade4xx
  | transportError
deriving DecidableEq

/-- `WebSocketTunnel.connect` (src/server/websocket_tunnel.py lines
40-72): every exception — auth rejection included — lands in the same
`except` clause, is logged, and becomes `return False`. -/
def connectResult : Option ConnectFailure → Bool
  | none => true
  | some _ => false

/-- The spec's backoff formula, scaled to tenths of a second so that the
±20% jitter band stays in `Nat`: lower edge `0.8 × initial × 2^min(k,5)`. -/
def specWaitLoTenths (k : Nat) : Nat := 8 * reconnect_interval * 2 ^ min k 5

/-- Upper edge of the jitter band, in tenths of a second. -/
def specWaitHiTenths (k : Nat) : Nat := 12 * reconnect_interval * 2 ^ min k 5

/-! ### Teardown: `VPNClient.stop`

(src/client/cli/client.py lines 159-180): the four teardown steps run
inside a single `try` block; the `except` clause only prints the error.
A step that raises therefore skips every later step. -/

inductive StopStep
  | stopPacketProcessing
  | disconnectTunnel
  | removeVpnRoutesStep
  | restoreOriginalDnsStep
deriving DecidableEq

/-- The order of the statements inside `VPNClient.stop`'s `try` block. -/
def stopSequence : List StopStep :=
  [.stopPacketProcessing, .disconnectTunnel, .removeVpnRoutesStep,
   .restoreOriginalDnsStep]

/-- Executes statements in order; a statement whose `failing` flag is set
raises, so it is the last one attempted (the exception propagates to the
single `except` clause). Returns the attempted steps. -/
def attemptedSteps (failing : StopStep → Bool) : List StopStep → List StopStep
  | [] => []
  | s :: rest => if failing s then [s] else s :: attemptedSteps failing rest

/-- The steps `VPNClient.stop` attempts, given which steps raise. -/
def vpnClientStop (failing : StopStep → Bool) : List StopStep :=
  attemptedSteps failing stopSequence

/-! ### Host network state: `RouteManager` and `DnsManager`

(src/server/tun_manager.py lines 279-379). `RouteManager` keeps the
snapshot of `ip route show` only in the field `original_routes` of the
process; it writes no file. `DnsManager.set_vpn_dns` runs
`cp /etc/resolv.conf /etc/resolv.conf.backup` and then rewrites
`/etc/resolv.conf` in place (truncating `open("w")` followed by
sequential writes). `restore_original_dns` runs
`cp /etc/resolv.conf.backup /etc/resolv.conf`. Nothing in the repository
touches `state/original.snap` or `state/resolv.backup`. -/

structure Route where
  dest : String
  via : String
  dev : String
deriving DecidableEq

/-- Observable host state: the route table (a multiset, since `ip route`
output is an unordered rule set), the lines of `/etc/resolv.conf`, and
the contents (when the file exists) of the three backup locations that
matter to the spec. -/
structure HostState where
  routes : Multiset Route
  resolv : List String
  etcResolvBackup : Option (List String)
  stateOriginalSnap : Option (List String)
  stateResolvBackup : Option (List String)
deriving DecidableEq

/-- In-memory fields of `RouteManager` and `DnsManager`. -/
structure NetManagers where
  originalRoutes : Option (Multiset Route)
  vpnRoutes : List Route
  originalDns : Option (List String)
deriving DecidableEq

/-- Host plus manager state. -/
structure Sys where
  host : HostState
  mgr : NetManagers
deriving DecidableEq

/-- Manager state as constructed by `RouteManager.__init__` and
`DnsManager.__init__`. -/
def initialManagers : NetManagers := ⟨none, [], none⟩

/-- `RouteManager.save_original_routes`: reads `ip route show` into the
in-memory list `original_routes`; no file is written. -/
def save_original_routes (s : Sys) : Sys :=
  { s with mgr := { s.mgr with originalRoutes := some s.host.routes } }

/-- `DnsManager.save_original_dns`: reads `/etc/resolv.conf` into the
in-memory list `original_dns`; no file is written. -/
def save_original_dns (s : Sys) : Sys :=
  { s with mgr := { s.mgr with originalDns := some s.host.resolv } }

/-- Whether the table already holds a default route. `ip route add
default ...` fails with `EEXIST` when a default route at the same
(default, 0) metric is present, leaving the table unchanged. -/
def hasDefaultRoute (m : Multiset Route) : Bool :=
  Multiset.countP (fun q => q.dest = "default") m != 0

/-- `RouteManager.add_vpn_route`: runs `ip route add default via gateway
dev interface` — which inserts the route only when no metric-0 default
route pre-exists, and otherwise fails with `EEXIST`, a failure
`os.system` reports but the caller ignores — and then appends the triple
to `vpn_routes` unconditionally (the code never checks the `os.system`
return value). -/
def add_vpn_route (iface gw : String) (s : Sys) : Sys :=
  let r : Route := ⟨"default", gw, iface⟩
  { s with
    host := { s.host with
              routes := if hasDefaultRoute s.host.routes then s.host.routes
                        else r ::ₘ s.host.routes },
    mgr := { s.mgr with vpnRoutes := s.mgr.vpnRoutes ++ [r] } }

/-- `RouteManager.remove_vpn_routes`: `ip route del` for each recorded
triple, then `vpn_routes.clear()`. -/
def remove_vpn_routes (s : Sys) : Sys :=
  { s with
    host := { s.host with
              routes := s.mgr.vpnRoutes.foldl (fun m r => m.erase r) s.host.routes },
    mgr := { s.mgr with vpnRoutes := [] } }

/-- The replacement `/etc/resolv.conf` written by `set_vpn_dns` for the
hard-coded server list `["8.8.8.8", "8.8.4.4"]`. -/
def vpnResolvLines : List String :=
  ["# VPN DNS Configuration", "nameserver 8.8.8.8", "nameserver 8.8.4.4"]

/-- `DnsManager.set_vpn_dns`: back up to `/etc/resolv.conf.backup` by
`cp`, then overwrite `/etc/resolv.conf` with the VPN nameserver lines. -/
def set_vpn_dns (s : Sys) : Sys :=
  { s with
    host := { s.host with
              etcResolvBackup := some s.host.resolv,
              resolv := vpnResolvLines } }

/-- The successive contents of `/etc/resolv.conf` while `set_vpn_dns`
rewrites it in place: `open("w")` truncates, then the header and each
nameserver line land one `write` at a time. -/
def setVpnDnsResolvStates (s : Sys) : List (List String) :=
  [s.host.resolv,
   [],
   ["# VPN DNS Configuration"],
   ["# VPN DNS Configuration", "nameserver 8.8.8.8"],
   vpnResolvLines]

/-- `DnsManager.restore_original_dns`: `cp /etc/resolv.conf.backup
/etc/resolv.conf`; when the backup file does not exist the `cp` fails and
the (ignored) `os.system` error leaves the file unchanged. -/
def restore_original_dns (s : Sys) : Sys :=
  match s.host.etcResolvBackup with
  | some b => { s with host := { s.host with resolv := b } }
  | none => s

/-- The snapshot phase of `VPNClient.start`: save routes, then DNS. -/
def snapshotPhase (s : Sys) : Sys := save_original_dns (save_original_routes s)

/-- The apply phase of `VPNClient.start`: `add_vpn_route("tun0",
"10.0.0.1")` then `set_vpn_dns()`. -/
def applyPhase (s : Sys) : Sys := set_vpn_dns (add_vpn_route "tun0" "10.0.0.1" s)

/-- The restore phase of `VPNClient.stop`: `remove_vpn_routes()` then
`restore_original_dns()`. -/
def restorePhase (s : Sys) : Sys := restore_original_dns (remove_vpn_routes s)

/-! ### `TunnelManager` (src/server/websocket_tunnel.py lines 245-322)

Tunnel objects are identified by allocation order (`nextId`), matching
Python object identity; `tunnels` is the manager's dict as an association
list with Python-dict update semantics. -/

/-- Value stored under a key, `none` when the key is absent. -/
def lookupKey (l : List (String × Nat)) (k : String) : Option Nat :=
  (l.find? (fun p => p.1 == k)).map (fun p => p.2)

/-- Remove a key (dict `del` / overwrite helper). -/
def eraseKey (l : List (String × Nat)) (k : String) : List (String × Nat) :=
  l.filter (fun p => !(p.1 == k))

/-- Dict assignment `d[k] = v`. -/
def setKey (l : List (String × Nat)) (k : String) (v : Nat) :
    List (String × Nat) :=
  (k, v) :: eraseKey l k

structure TMState where
  tunnels : List (String × Nat)
  active : Option Nat
  nextId : Nat
deriving DecidableEq

/-- `TunnelManager.__init__`. -/
def tmInit : TMState := ⟨[], none, 0⟩

inductive TMOp
  | create (id : String) (connectOk : Bool)
  | switch (id : String)
  | close (id : String)

/-- One `TunnelManager` operation.

* `create_tunnel`: builds a fresh tunnel object, stores it under
  `tunnel_id` (replacing any previous value), and — only if `connect()`
  succeeded and `active_tunnel` is unset — makes it active.
* `switch_tunnel`: no-op for unknown ids, else points `active_tunnel` at
  the stored tunnel.
* `close_tunnel`: no-op for unknown ids, else deletes the entry and
  clears `active_tunnel` only when it is that very object. -/
def tmStep (s : TMState) : TMOp → TMState
  | .create id ok =>
      let t := s.nextId
      let tunnels := setKey s.tunnels id t
      let active := if ok then
          (match s.active with
           | none => some t
           | some a => some a)
        else s.active
      ⟨tunnels, active, s.nextId + 1⟩
  | .switch id =>
      match lookupKey s.tunnels id with
      | none => s
      | some t => { s with active := some t }
  | .close id =>
      match lookupKey s.tunnels id with
      | none => s
      | some t =>
          { s with
            tunnels := eraseKey s.tunnels id,
            active := if s.active = some t then none else s.active }

/-- A sequence of manager operations. -/
def tmRun (s : TMState) (ops : List TMOp) : TMState := ops.foldl tmStep s

/-- The claimed membership invariant: `active_tunnel` is `None` or one of
the values currently stored in `tunnels`. -/
def activeInTunnels (s : TMState) : Prop :=
  ∀ t, s.active = some t → ∃ p ∈ s.tunnels, p.2 = t

/-- Key uniqueness of the dict model (auxiliary invariant). -/
def keysNodup (s : TMState) : Prop := (s.tunnels.map Prod.fst).Nodup

/-- Whether one operation avoids reusing a present id (`create` with a
key already in the dict is the only offender). -/
def opFresh (s : TMState) : TMOp → Bool
  | .create id _ => (lookupKey s.tunnels id).isNone
  | .switch _ => true
  | .close _ => true

/-- Trace condition under which the membership invariant will be proved:
no `create_tunnel` call reuses a `tunnel_id` that is currently present. -/
def freshCreates (s : TMState) : List TMOp → Bool
  | [] => true
  | op :: rest => opFresh s op && freshCreates (tmStep s op) rest

/-! ## Claims -/

/-- C1 counterexample: the one-byte packet `[0x45]` is in the claimed
length range `1 ≤ |p| ≤ MTU`, yet the uplink sends no frame for it —
`process_packet` returns before `send_packet` because the packet is
shorter than 20 bytes. -/
theorem C1_counterexample :
    1 ≤ ([69] : List Nat).length ∧ ([69] : List Nat).length ≤ mtu ∧
    ¬ ∃ s, process_packet true [69] = some s := by
  refine ⟨by decide, by decide, ?_⟩
  rintro ⟨s, hs⟩
  rw [show process_packet true [69] = none from rfl] at hs
  exact Option.noConfusion hs

/-- C1 (amended): on a connected tunnel, the uplink sends exactly one
`tunnel_data` frame whose base64-decoded payload is byte-identical to the
packet if and only if the packet is at least 20 bytes and its version
nibble is 4, or its version nibble is 6 and it is at least 40 bytes;
every other packet in `1 ≤ |p| ≤ MTU` is silently dropped. -/
theorem C1_uplink_filtered (p : List Nat) (hbytes : ∀ b ∈ p, b < 256) :
    ((∃ s, process_packet true p = some s) ↔
      20 ≤ p.length ∧
        (ipVersion p = 4 ∨ (ipVersion p = 6 ∧ 40 ≤ p.length))) ∧
    ∀ s, process_packet true p = some s → b64decode s = some p := by
  have hsend : send_packet true p = some (b64encode p) := rfl
  constructor
  · unfold process_packet
    rw [hsend]
    split_ifs with h1 h2 h3 h4
    · exact iff_of_false (by rintro ⟨s, hs⟩; cases hs)
        (by rintro ⟨hl, _⟩; omega)
    · exact iff_of_true ⟨b64encode p, rfl⟩ ⟨by omega, Or.inl h2⟩
    · exact iff_of_true ⟨b64encode p, rfl⟩ ⟨by omega, Or.inr ⟨h3, h4⟩⟩
    · refine iff_of_false (by rintro ⟨s, hs⟩; cases hs) ?_
      rintro ⟨hl, h | ⟨h6, h40⟩⟩
      · exact h2 h
      · exact h4 h40
    · refine iff_of_false (by rintro ⟨s, hs⟩; cases hs) ?_
      rintro ⟨hl, h | ⟨h6, h40⟩⟩
      · exact h2 h
      · exact h3 h6
  · intro s hs
    unfold process_packet at hs
    rw [hsend] at hs
    split_ifs at hs
    all_goals first
      | exact Option.noConfusion hs
      | (injection hs with h; subst h; exact b64_roundtrip p hbytes)

/-- C1 witness: a 20-byte IPv4-looking packet satisfies the hypotheses
and is forwarded with a payload that decodes back to itself. -/
theorem C1_uplink_filtered_witness :
    (∀ b ∈ (69 :: List.replicate 19 0 : List Nat), b < 256) ∧
    (((∃ s, process_packet true (69 :: List.replicate 19 0) = some s) ↔
        20 ≤ (69 :: List.replicate 19 0 : List Nat).length ∧
          (ipVersion (69 :: List.replicate 19 0) = 4 ∨
            (ipVersion (69 :: List.replicate 19 0) = 6 ∧
              40 ≤ (69 :: List.replicate 19 0 : List Nat).length))) ∧
      ∀ s, process_packet true (69 :: List.replicate 19 0) = some s →
        b64decode s = some (69 :: List.replicate 19 0)) :=
  ⟨by decide, C1_uplink_filtered _ (by decide)⟩

/-- C2 counterexample: when `stop_packet_processing` raises, neither the
route restoration nor the DNS restoration is attempted — the single
`try` block of `VPNClient.stop` short-circuits the teardown. -/
theorem C2_counterexample :
    StopStep.removeVpnRoutesStep ∉
      vpnClientStop (fun s => s == StopStep.stopPacketProcessing) ∧
    StopStep.restoreOriginalDnsStep ∉
      vpnClientStop (fun s => s == StopStep.stopPacketProcessing) := by
  decide

/-- C2 (amended): the teardown steps of `VPNClient.stop` run in order
inside one `try` block, so a step that raises skips every later step (the
exception is caught and only logged); in particular DNS restoration runs
iff none of the three earlier steps raised. -/
theorem C2_teardown_short_circuits (failing : StopStep → Bool) :
    StopStep.stopPacketProcessing ∈ vpnClientStop failing ∧
    (StopStep.restoreOriginalDnsStep ∈ vpnClientStop failing ↔
      failing .stopPacketProcessing = false ∧
      failing .disconnectTunnel = false ∧
      failing .removeVpnRoutesStep = false) := by
  cases h1 : failing .stopPacketProcessing <;>
  cases h2 : failing .disconnectTunnel <;>
  cases h3 : failing .removeVpnRoutesStep <;>
  cases h4 : failing .restoreOriginalDnsStep <;>
  simp [vpnClientStop, stopSequence, attemptedSteps, h1, h2, h3, h4]

/-- C3 counterexample: for attempt 2 the spec's backoff band (in tenths
of a second, ±20% around `5 × 2^min(2,5)` s) is `[160, 240]`, but the
code always waits the constant 5 s (50 tenths). -/
theorem C3_counterexample :
    ¬ (specWaitLoTenths 2 ≤ 10 * reconnectWait 2 ∧
       10 * reconnectWait 2 ≤ specWaitHiTenths 2) := by decide

/-- C3 (amended): the wait before every reconnection attempt is the
constant `reconnect_interval = 5` s — no exponential factor, no jitter —
which is trivially monotone and below 60 s; after
`max_reconnect_attempts` failed attempts the loop stops with only a log
message and surfaces no `FatalDisconnect`. -/
theorem C3_constant_backoff :
    (∀ k, reconnectWait k = reconnect_interval) ∧
    (∀ j k, j ≤ k → reconnectWait j ≤ reconnectWait k) ∧
    (∀ k, reconnectWait k ≤ 60) ∧
    (∀ connectOk, (∀ a, connectOk a = false) →
      handleReconnect connectOk =
        (ReconnectOutcome.logMaxReachedOnly, max_reconnect_attempts)) := by
  have key : ∀ (f : Nat → Bool), (∀ a, f a = false) → ∀ (n a : Nat),
      reconnectLoop f a n = (ReconnectOutcome.logMaxReachedOnly, n) := by
    intro f hf n
    induction n with
    | zero => intro a; rfl
    | succ m ih => intro a; simp [reconnectLoop, hf, ih]
  exact ⟨fun _ => rfl, fun _ _ _ => le_refl _,
    fun _ => by unfold reconnectWait reconnect_interval; omega,
    fun f hf => key f hf max_reconnect_attempts 1⟩

/-- C3 witness: monotonicity at `2 ≤ 3` and the exhaustion outcome for an
always-failing connection. -/
theorem C3_constant_backoff_witness :
    (2 ≤ 3 ∧ reconnectWait 2 ≤ reconnectWait 3) ∧
    handleReconnect (fun _ => false) =
      (ReconnectOutcome.logMaxReachedOnly, max_reconnect_attempts) :=
  ⟨⟨by decide, C3_constant_backoff.2.1 2 3 (by decide)⟩,
   C3_constant_backoff.2.2.2 (fun _ => false) (fun _ => rfl)⟩

/-- C4 counterexample: when every `connect()` during reconnection is
rejected with HTTP 401, the client still makes further attempts (ten of
them), not zero. -/
theorem C4_counterexample :
    (handleReconnect (fun _ => connectResult (some .http401))).2 ≠ 0 := by
  decide

/-- C4 (amended): `connect` catches all exceptions uniformly, so an
authentication rejection (401/403/4xx upgrade failure) is
indistinguishable from a transport error; during reconnection an
auth-rejecting server is retried until `max_reconnect_attempts` is
exhausted rather than zero times, and the outcome is only a logged
give-up, not a fatal-auth close. -/
theorem C4_auth_failure_not_fatal :
    connectResult (some .http401) = connectResult (some .transportError) ∧
    connectResult (some .http403) = connectResult (some .upgrade4xx) ∧
    handleReconnect (fun _ => connectResult (some .http401)) =
      (ReconnectOutcome.logMaxReachedOnly, max_reconnect_attempts) := by
  decide

/-- Helper: handling a `tunnel_data` message whose payload is the encoding
of a nonempty byte list writes exactly that byte list to the TUN device,
once. -/
theorem tunnelData_write_of_encode (p : List Nat) (hne : p ≠ [])
    (hbytes : ∀ b ∈ p, b < 256) :
    handle_tunnel_data true (some (b64encode p)) = [p] := by
  have henc : ¬ (b64encode p = []) := by
    match p with
    | [] => exact absurd rfl hne
    | [a] => simp [b64encode]
    | [a, b] => simp [b64encode]
    | a :: b :: c :: rest => simp [b64encode]
  simp [handle_tunnel_data, henc, b64_roundtrip p hbytes]

/-- C5 counterexample: a decoded payload of 3500 bytes — far above
`max_frame_bytes = 1756` — is not rejected: `_handle_tunnel_data` decodes
it and writes it to the TUN device. -/
theorem C5_counterexample :
    maxFrameBytes < (List.replicate 3500 0 : List Nat).length ∧
    handle_tunnel_data true (some (b64encode (List.replicate 3500 0))) =
      [List.replicate 3500 0] := by
  refine ⟨by rw [List.length_replicate]; decide, ?_⟩
  refine tunnelData_write_of_encode _
    (by intro h; rw [List.replicate_eq_nil_iff] at h; omega) ?_
  intro b hb
  rw [List.eq_of_mem_replicate hb]
  omega

/-- C5 (amended): the decoder performs no size validation at all — every
well-formed payload, including one whose decoded size exceeds
`max_frame_bytes`, is decoded and written to the TUN device; there is no
`FrameTooLarge` path (the only part of the claim the code satisfies is
that an oversize frame does not terminate the session, since the handler
swallows all errors). -/
theorem C5_no_size_validation (p : List Nat)
    (hover : maxFrameBytes < p.length) (hbytes : ∀ b ∈ p, b < 256) :
    handle_tunnel_data true (some (b64encode p)) = [p] := by
  refine tunnelData_write_of_encode p ?_ hbytes
  intro hnil
  rw [hnil] at hover
  exact absurd hover (by decide)

/-- C5 witness: a 2000-byte payload is oversize yet written verbatim. -/
theorem C5_no_size_validation_witness :
    (maxFrameBytes < (List.replicate 2000 7 : List Nat).length ∧
     ∀ b ∈ (List.replicate 2000 7 : List Nat), b < 256) ∧
    handle_tunnel_data true (some (b64encode (List.replicate 2000 7))) =
      [List.replicate 2000 7] :=
  ⟨⟨by rw [List.length_replicate]; decide,
    fun b hb => by rw [List.eq_of_mem_replicate hb]; omega⟩,
   C5_no_size_validation _ (by rw [List.length_replicate]; decide)
     (fun b hb => by rw [List.eq_of_mem_replicate hb]; omega)⟩

/-- C7 counterexample: the client's dispatcher sends a `welcome` frame to
the unknown-message branch (logged and dropped), and a non-`welcome`
first frame such as `ping` does not abort the session with
`ProtocolError`. -/
theorem C7_counterexample :
    processMessageAction "welcome" = MsgAction.unknownLogged ∧
    processMessageAction "ping" ≠ MsgAction.abortProtocolError := by
  decide

/-- C7 (amended): the client has no Welcome handling at all — a `welcome`
frame is logged as an unknown message type and dropped, no first-frame
ordering or 10-second deadline is enforced, and no message type ever
aborts the session with `ProtocolError`. -/
theorem C7_no_welcome_handling :
    processMessageAction "welcome" = MsgAction.unknownLogged ∧
    ∀ m, processMessageAction m ≠ MsgAction.abortProtocolError := by
  refine ⟨by decide, ?_⟩
  intro m
  unfold processMessageAction
  split_ifs <;> decide

/-- C8: the downlink inverts the uplink encoding — feeding the payload of
the frame produced by `send_packet` for a (nonempty, per the data model
`1 ≤ |p|`) packet to `_handle_tunnel_data` performs exactly one TUN
write, and its bytes equal the original packet. -/
theorem C8_downlink_inverts_uplink (p : List Nat) (hlen : 1 ≤ p.length)
    (hbytes : ∀ b ∈ p, b < 256) :
    ∀ s, send_packet true p = some s →
      handle_tunnel_data true (some s) = [p] := by
  intro s hs
  have hs' : some (b64encode p) = some s := hs
  injection hs' with h
  subst h
  refine tunnelData_write_of_encode p ?_ hbytes
  intro hnil
  rw [hnil] at hlen
  simp at hlen

/-- C8 witness: the three-byte packet `[1, 2, 3]` round-trips through the
encode/decode pair into exactly one write. -/
theorem C8_downlink_inverts_uplink_witness :
    (1 ≤ ([1, 2, 3] : List Nat).length ∧
     ∀ b ∈ ([1, 2, 3] : List Nat), b < 256) ∧
    handle_tunnel_data true (some (b64encode [1, 2, 3])) = [[1, 2, 3]] :=
  ⟨⟨by decide, by decide⟩,
   C8_downlink_inverts_uplink [1, 2, 3] (by decide) (by decide)
     (b64encode [1, 2, 3]) rfl⟩

/-- C6 counterexample: starting from a concrete host that holds only a
subnet route and no default route (so the `ip route add` genuinely
succeeds and mutates the table), the full snapshot-then-apply sequence
leaves `state/original.snap` and `state/resolv.backup` nonexistent even
though the host's route table and resolver were mutated, and while
`set_vpn_dns` rewrites the resolver file in place it passes through an
empty (truncated) content that is neither the original nor the final
configuration. -/
theorem C6_counterexample :
    let s0 : Sys := ⟨⟨{⟨"192.168.1.0/24", "0.0.0.0", "eth0"⟩},
                      ["nameserver 192.168.1.1"], none, none, none⟩,
                    initialManagers⟩
    let s1 := applyPhase (snapshotPhase s0)
    s1.host.stateOriginalSnap = none ∧
    s1.host.stateResolvBackup = none ∧
    s1.host.routes ≠ s0.host.routes ∧
    s1.host.resolv ≠ s0.host.resolv ∧
    [] ∈ setVpnDnsResolvStates (add_vpn_route "tun0" "10.0.0.1"
          (snapshotPhase s0)) ∧
    ([] : List String) ≠ s0.host.resolv ∧
    ([] : List String) ≠ vpnResolvLines := by
  decide

/-- C6 (amended): `save_original_routes` keeps the route snapshot only in
process memory and writes no file (`state/original.snap` is never
created); `set_vpn_dns` backs the resolver up to `/etc/resolv.conf.backup`
via `cp` (not `state/resolv.backup`) and then rewrites `/etc/resolv.conf`
in place — truncate followed by sequential writes, not
write-temp-then-rename — so the file passes through an empty state;
consequently, after a crash during route mutation no on-disk route
snapshot exists, and only the resolver is recoverable, from
`/etc/resolv.conf.backup`. -/
theorem C6_snapshot_in_memory_only (h : HostState) :
    let s0 : Sys := ⟨h, initialManagers⟩
    let s1 := applyPhase (snapshotPhase s0)
    s1.host.stateOriginalSnap = h.stateOriginalSnap ∧
    s1.host.stateResolvBackup = h.stateResolvBackup ∧
    s1.mgr.originalRoutes = some h.routes ∧
    s1.host.etcResolvBackup = some h.resolv ∧
    s1.host.resolv = vpnResolvLines ∧
    [] ∈ setVpnDnsResolvStates (add_vpn_route "tun0" "10.0.0.1"
          (snapshotPhase s0)) := by
  simp [applyPhase, snapshotPhase, save_original_routes, save_original_dns,
        add_vpn_route, set_vpn_dns, setVpnDnsResolvStates, initialManagers]

/-- C9 counterexample: a host that already holds exactly the route
`default via 10.0.0.1 dev tun0` is not restored bit-identically: the
`ip route add` during apply fails with `EEXIST` (ignored) while the
triple is still recorded in `vpn_routes`, so the restore's
`ip route del` removes the pre-existing default route and the table ends
up empty. -/
theorem C9_counterexample :
    let s0 : Sys := ⟨⟨{⟨"default", "10.0.0.1", "tun0"⟩},
                      ["nameserver 1.1.1.1"], none, none, none⟩,
                    initialManagers⟩
    (restorePhase (restorePhase (applyPhase (snapshotPhase s0)))).host.routes
      ≠ s0.host.routes := by
  decide

/-- C9 (amended): for any host state holding no metric-0 default route
before the snapshot, snapshot, apply, restore, restore leaves the route
table and the resolver configuration identical to the pre-snapshot
state, and the second restore performs no mutation at all beyond the
first (the state is a fixed point). When a default route pre-exists, the
`ip route add` of apply fails with `EEXIST` (ignored) while its triple is
still recorded, so restore deletes a matching pre-existing route
instead. Modelling note: `ip route del` removes one matching entry of
the route multiset and is a no-op when none matches. -/
theorem C9_restore_idempotent_no_default (h : HostState)
    (hnd : hasDefaultRoute h.routes = false) :
    let s0 : Sys := ⟨h, initialManagers⟩
    let s3 := restorePhase (applyPhase (snapshotPhase s0))
    s3.host.routes = h.routes ∧
    s3.host.resolv = h.resolv ∧
    (restorePhase s3).host.routes = h.routes ∧
    (restorePhase s3).host.resolv = h.resolv ∧
    restorePhase s3 = s3 := by
  simp [restorePhase, applyPhase, snapshotPhase, save_original_routes,
        save_original_dns, add_vpn_route, set_vpn_dns, remove_vpn_routes,
        restore_original_dns, initialManagers, hnd, Multiset.erase_cons_head]

/-- A concrete host with only a subnet route (no default route), used to
exercise the no-default-route hypothesis. -/
def c9Host : HostState :=
  ⟨{⟨"192.168.1.0/24", "0.0.0.0", "eth0"⟩},
   ["nameserver 10.0.0.53"], none, none, none⟩

/-- C9 witness: a host with only a subnet route satisfies the
no-default-route hypothesis and is restored bit-identically. -/
theorem C9_restore_idempotent_no_default_witness :
    (hasDefaultRoute c9Host.routes = false) ∧
    (let s0 : Sys := ⟨c9Host, initialManagers⟩
     let s3 := restorePhase (applyPhase (snapshotPhase s0))
     s3.host.routes = c9Host.routes ∧
     s3.host.resolv = c9Host.resolv ∧
     (restorePhase s3).host.routes = c9Host.routes ∧
     (restorePhase s3).host.resolv = c9Host.resolv ∧
     restorePhase s3 = s3) :=
  ⟨by decide, C9_restore_idempotent_no_default c9Host (by decide)⟩

/-- Helper: a key that `lookupKey` misses belongs to no pair of the
association list. -/
theorem lookupKey_eq_none (l : List (String × Nat)) (k : String)
    (h : lookupKey l k = none) : ∀ p ∈ l, p.1 ≠ k := by
  intro p hp hpk
  unfold lookupKey at h
  rw [Option.map_eq_none'] at h
  have := List.find?_eq_none.mp h p hp
  simp [hpk] at this

/-- Helper: membership after removing a key. -/
theorem mem_eraseKey (l : List (String × Nat)) (k : String)
    (p : String × Nat) : p ∈ eraseKey l k ↔ p ∈ l ∧ p.1 ≠ k := by
  unfold eraseKey
  rw [List.mem_filter]
  simp

/-- Helper: a successful `lookupKey` comes from a pair of the list. -/
theorem lookupKey_mem (l : List (String × Nat)) (k : String) (t : Nat)
    (h : lookupKey l k = some t) : ∃ p ∈ l, p.1 = k ∧ p.2 = t := by
  unfold lookupKey at h
  cases hf : l.find? (fun p => p.1 == k) with
  | none => rw [hf] at h; cases h
  | some q =>
      rw [hf] at h
      refine ⟨q, List.mem_of_find?_eq_some hf, ?_, ?_⟩
      · have := List.find?_some hf
        simpa using this
      · simpa using h

/-- Helper: with unique keys, every pair of the list is what `lookupKey`
returns for its key. -/
theorem lookupKey_of_mem (l : List (String × Nat)) (p : String × Nat)
    (hnd : (l.map Prod.fst).Nodup) (hp : p ∈ l) :
    lookupKey l p.1 = some p.2 := by
  induction l with
  | nil => cases hp
  | cons q rest ih =>
      rw [List.map_cons, List.nodup_cons] at hnd
      rcases List.mem_cons.mp hp with rfl | hp'
      · unfold lookupKey
        rw [List.find?_cons_of_pos _ (by simp)]
        rfl
      · by_cases hq : q.1 = p.1
        · exact absurd (hq ▸ List.mem_map_of_mem Prod.fst hp') hnd.1
        · unfold lookupKey
          rw [List.find?_cons_of_neg _ (by simpa using hq)]
          exact ih hnd.2 hp'

/-- Helper: removing a key preserves key uniqueness. -/
theorem keysNodup_eraseKey (l : List (String × Nat)) (k : String)
    (h : (l.map Prod.fst).Nodup) :
    ((eraseKey l k).map Prod.fst).Nodup :=
  h.sublist ((List.filter_sublist l).map Prod.fst)

/-- Helper: dict assignment preserves key uniqueness. -/
theorem keysNodup_setKey (l : List (String × Nat)) (k : String) (v : Nat)
    (h : (l.map Prod.fst).Nodup) :
    (((setKey l k v).map Prod.fst)).Nodup := by
  unfold setKey
  rw [List.map_cons, List.nodup_cons]
  refine ⟨?_, keysNodup_eraseKey l k h⟩
  intro hk
  rcases List.mem_map.mp hk with ⟨p, hp, hpk⟩
  exact ((mem_eraseKey l k p).mp hp).2 hpk

/-- The two-part induction invariant for `TunnelManager`. -/
def tmInvariant (s : TMState) : Prop := activeInTunnels s ∧ keysNodup s

/-- Helper: one `TunnelManager` operation preserves the invariant,
provided a `create` does not reuse a present id. -/
theorem tmStep_invariant (s : TMState) (op : TMOp) (hinv : tmInvariant s)
    (hfresh : ∀ id ok, op = .create id ok →
      lookupKey s.tunnels id = none) :
    tmInvariant (tmStep s op) := by
  obtain ⟨hact, hnd⟩ := hinv
  cases op with
  | create id ok =>
      have hf := hfresh id ok rfl
      refine ⟨?_, keysNodup_setKey _ _ _ hnd⟩
      intro t ht
      simp only [tmStep] at ht ⊢
      cases hok : ok with
      | false =>
          rw [hok] at ht
          simp only [Bool.false_eq_true, if_false] at ht
          rcases hact t ht with ⟨p, hp, hpt⟩
          exact ⟨p, List.mem_cons_of_mem _
            ((mem_eraseKey _ _ _).mpr ⟨hp, lookupKey_eq_none _ _ hf p hp⟩),
            hpt⟩
      | true =>
          rw [hok] at ht
          simp only [if_true] at ht
          cases ha : s.active with
          | none =>
              rw [ha] at ht
              injection ht with h
              exact ⟨(id, s.nextId), List.mem_cons_self _ _, h⟩
          | some a =>
              rw [ha] at ht
              injection ht with h
              rcases hact a ha with ⟨p, hp, hpt⟩
              refine ⟨p, List.mem_cons_of_mem _
                ((mem_eraseKey _ _ _).mpr
                  ⟨hp, lookupKey_eq_none _ _ hf p hp⟩), ?_⟩
              rw [hpt, h]
  | switch id =>
      cases hl : lookupKey s.tunnels id with
      | none =>
          constructor
          · intro t ht
            simp only [tmStep, hl] at ht ⊢
            exact hact t ht
          · simp only [keysNodup, tmStep, hl]
            exact hnd
      | some t0 =>
          constructor
          · intro t ht
            simp only [tmStep, hl] at ht ⊢
            injection ht with h
            subst h
            rcases lookupKey_mem _ _ _ hl with ⟨p, hp, _, hpt⟩
            exact ⟨p, hp, hpt⟩
          · simp only [keysNodup, tmStep, hl]
            exact hnd
  | close id =>
      cases hl : lookupKey s.tunnels id with
      | none =>
          constructor
          · intro t ht
            simp only [tmStep, hl] at ht ⊢
            exact hact t ht
          · simp only [keysNodup, tmStep, hl]
            exact hnd
      | some t0 =>
          constructor
          · intro t ht
            simp only [tmStep, hl] at ht ⊢
            by_cases hcase : s.active = some t0
            · rw [if_pos hcase] at ht
              cases ht
            · rw [if_neg hcase] at ht
              rcases hact t ht with ⟨p, hp, hpt⟩
              refine ⟨p, (mem_eraseKey _ _ _).mpr ⟨hp, ?_⟩, hpt⟩
              intro hpk
              apply hcase
              have hlp := lookupKey_of_mem s.tunnels p hnd hp
              rw [hpk, hl] at hlp
              injection hlp with h2
              rw [ht, h2, hpt]
          · simp only [keysNodup, tmStep, hl]
            exact keysNodup_eraseKey _ _ hnd

/-- Helper: the invariant survives any fresh-id trace. -/
theorem tmRun_invariant : ∀ (ops : List TMOp) (s : TMState),
    tmInvariant s → freshCreates s ops = true → tmInvariant (tmRun s ops)
  | [], _, hinv, _ => hinv
  | op :: rest, s, hinv, hfresh => by
      rw [freshCreates, Bool.and_eq_true] at hfresh
      refine tmRun_invariant rest (tmStep s op) ?_ hfresh.2
      apply tmStep_invariant s op hinv
      intro id ok hop
      subst hop
      have h1 := hfresh.1
      simp only [opFresh] at h1
      exact Option.isNone_iff_eq_none.mp h1

/-- C10 counterexample: calling `create_tunnel` twice with the same
tunnel id (both connects succeeding) replaces the dictionary entry while
`active_tunnel` keeps pointing at the replaced object — the membership
invariant is violated. -/
theorem C10_counterexample :
    ¬ activeInTunnels (tmRun tmInit [.create "a" true, .create "a" true]) := by
  intro hinv
  have h0 : (tmRun tmInit [.create "a" true, .create "a" true]).active
      = some 0 := rfl
  rcases hinv 0 h0 with ⟨p, hp, hv⟩
  rw [show (tmRun tmInit [.create "a" true, .create "a" true]).tunnels
      = [("a", 1)] from rfl] at hp
  rw [List.mem_singleton] at hp
  subst hp
  exact absurd hv (by decide)

/-- C10 (amended): the membership invariant — `active_tunnel` is `None`
or one of the values currently stored in `tunnels` — holds after any
sequence of operations in which no `create_tunnel` call reuses a
tunnel id that is currently present in the dictionary. -/
theorem C10_membership_with_fresh_ids (ops : List TMOp)
    (hfresh : freshCreates tmInit ops = true) :
    activeInTunnels (tmRun tmInit ops) :=
  (tmRun_invariant ops tmInit
    ⟨fun _ ht => Option.noConfusion ht, List.nodup_nil⟩ hfresh).1

/-- C10 witness: a create/switch/close trace with fresh ids satisfies the
hypothesis, and the resulting state keeps the invariant. -/
theorem C10_membership_with_fresh_ids_witness :
    freshCreates tmInit [.create "a" true, .switch "a", .close "a"] = true ∧
    activeInTunnels (tmRun tmInit [.create "a" true, .switch "a", .close "a"]) :=
  ⟨by decide, C10_membership_with_fresh_ids _ (by decide)⟩

end VPN
